import Mathlib

/-!
Verification of the radiolink link-layer radio protocol.

Shallow embedding of the Rust sources:
  * `queue.rs`    — byte queue with XON/XOFF flow control
  * `radio.rs`    — frame codec (`Packet::read` / `Packet::write`), the
                    `RxState`/`TxState` engine (`handle_rx_ack`,
                    `handle_rx_data`, `assemble_packet`)
  * `radio_protocol.rs` — the `RadioProtocol` engine working over
                    heapless spsc queues
  * `pend.rs`     — the pending-work hint

Machine integers are modelled as `Nat` with explicit `% 2 ^ 32` (u32) and
`% 256` (u8) where wrapping matters.  Fallible operations (Rust panics and
`Result`-returning queue pushes) are modelled with `Option`: `none` stands
for the panic / error branch.
-/

set_option maxRecDepth 16384

namespace Radiolink

/-! ### Constants (radio.rs lines 5-7, queue.rs lines 1-4) -/

def MIN_PAYLOAD_SIZE : Nat := 1

def MAX_PAYLOAD_SIZE : Nat := 27

def QUEUE_SIZE : Nat := 1024

/-- Capacity of `heapless::spsc::Queue<u8, 1024>`: the heapless spsc queue
holds `N - 1` elements. -/
def hlQueueCap : Nat := QUEUE_SIZE - 1

def U32 : Nat := 2 ^ 32

/-- Wrapping u32 subtraction `a - b` (for `a b < U32`). -/
def wsub (a b : Nat) : Nat := (a + U32 - b) % U32

/-- Wrapping u32 multiplication `now * 7` (`now.wrapping_mul(7)` in
`radio_protocol.rs`; plain release-mode `now * 7` in `radio.rs`). -/
def wmul7 (now : Nat) : Nat := now * 7 % U32

/-! ### PacketData (radio.rs lines 79-104)

The Rust struct stores a fixed `[u8; MAX_PAYLOAD_SIZE]` array together with
a `data_len` prefix length; only `data[..data_len]` is ever read
(`iter()`, `Packet::write`).  We represent exactly that meaningful prefix
as a list, so `data_len` is `data.length`. -/

structure PacketData where
  id : Nat
  data : List Nat
deriving DecidableEq, Repr

inductive Packet where
  | ack (ackId : Nat)
  | data (pd : PacketData)
  | both (ackId : Nat) (pd : PacketData)
deriving DecidableEq, Repr

/-- Ack id carried by a frame, if any. -/
def Packet.ackIdOf : Packet → Option Nat
  | .ack a => some a
  | .data _ => none
  | .both a _ => some a

/-! ### Frame codec (radio.rs lines 112-172) -/

def S0 : Nat := 0

def LEN : Nat := 1

def S1 : Nat := 2

def PAYLOAD : Nat := 3

/-- Rust `target[i] = v`: `none` models the out-of-bounds panic. -/
def setByte (target : List Nat) (i : Nat) (v : Nat) : Option (List Nat) :=
  if i < target.length then some (target.set i v) else none

/-- Rust `target[i..i + src.len()].copy_from_slice(src)`: `none` models the
out-of-bounds panic. -/
def setSlice (target : List Nat) (i : Nat) (src : List Nat) : Option (List Nat) :=
  match src with
  | [] => some target
  | b :: rest =>
    match setByte target i b with
    | none => none
    | some t => setSlice t (i + 1) rest

/-- `Packet::write` (radio.rs lines 146-172).  Byte values: `b'A' = 65`,
`b'D' = 68`, `b'X' = 88`. -/
def Packet.write (p : Packet) (target : List Nat) : Option (List Nat) :=
  match p with
  | .ack a => do
    let t ← setByte target S0 65
    let t ← setByte t LEN 1
    let t ← setByte t S1 0
    setByte t PAYLOAD a
  | .data pd => do
    let t ← setByte target S0 68
    let t ← setByte t LEN (pd.data.length + 1)
    let t ← setByte t S1 0
    let t ← setByte t PAYLOAD pd.id
    setSlice t (PAYLOAD + 1) pd.data
  | .both ackId pd => do
    let t ← setByte target S0 88
    let t ← setByte t LEN (pd.data.length + 2)
    let t ← setByte t S1 0
    let t ← setByte t PAYLOAD ackId
    let t ← setByte t (PAYLOAD + 1) pd.id
    setSlice t (PAYLOAD + 2) pd.data

/-- `Packet::read` (radio.rs lines 118-144).  Indexing uses `getD _ 0`; every
use below reads from a buffer long enough that each access is in bounds, so
the default is never produced.  The Rust `match` on the tag byte becomes an
if-chain on the same literals. -/
def Packet.read (source : List Nat) : Option Packet :=
  let len := source.getD LEN 0
  if len < MIN_PAYLOAD_SIZE ∨ MAX_PAYLOAD_SIZE < len then
    none
  else
    let tag := source.getD S0 0
    if tag = 65 then
      some (.ack (source.getD PAYLOAD 0))
    else if tag = 68 then
      let dataLen := len - 1
      let id := source.getD PAYLOAD 0
      some (.data ⟨id, ((source.drop (PAYLOAD + 1)).take dataLen)⟩)
    else if tag = 88 then
      let dataLen := len - 2
      let ackId := source.getD PAYLOAD 0
      let id := source.getD (PAYLOAD + 1) 0
      some (.both ackId ⟨id, ((source.drop (PAYLOAD + 2)).take dataLen)⟩)
    else
      none

/-! ### Byte queue with flow control (queue.rs) -/

def XON : Nat := 0x11

def XOFF : Nat := 0x13

/-- `Queue` (queue.rs lines 6-14): an inner heapless spsc byte queue of
capacity `hlQueueCap`, one dedicated flow-control slot, and the
`xoff_on` flag. -/
structure Queue where
  queue : List Nat
  control : Option Nat
  xoff_on : Bool
deriving DecidableEq, Repr

/-- `Queue::enqueue` (queue.rs lines 25-27): the inner
`heapless` enqueue result is `.unwrap()`ed, so a full inner queue is a
panic, modelled as `none`. -/
def Queue.enqueue (q : Queue) (byte : Nat) : Option Queue :=
  if q.queue.length < hlQueueCap then some { q with queue := q.queue ++ [byte] }
  else none

/-- `Queue::dequeue` (queue.rs lines 29-37): a pending control byte is
delivered first. -/
def Queue.dequeue (q : Queue) : Option Nat × Queue :=
  match q.control with
  | some c => (some c, { q with control := none })
  | none =>
    match q.queue with
    | [] => (none, q)
    | b :: rest => (some b, { q with queue := rest })

/-- `Queue::len` (queue.rs lines 39-44). -/
def Queue.len (q : Queue) : Nat :=
  (match q.control with
   | some _ => 1
   | none => 0) + q.queue.length

/-- `Queue::is_empty` (queue.rs lines 46-48). -/
def Queue.is_empty (q : Queue) : Bool := q.len = 0

/-- `Queue::flow_control` (queue.rs lines 51-59), returning the updated
`(self, target)` pair. -/
def Queue.flow_control (q : Queue) (target : Queue) : Queue × Queue :=
  if QUEUE_SIZE / 2 < q.queue.length ∧ q.xoff_on = false then
    ({ q with xoff_on := true }, { target with control := some XOFF })
  else if q.xoff_on = true ∧ q.queue.length < QUEUE_SIZE / 4 then
    ({ q with xoff_on := false }, { target with control := some XON })
  else
    (q, target)

/-! ### PacketData construction (radio.rs lines 86-99) -/

/-- The drain loop of `PacketData::from_queue`: pop bytes while fewer than
`fuel` have been taken and the queue is non-empty. -/
def drainQueue : Nat → Queue → List Nat × Queue
  | 0, q => ([], q)
  | Nat.succ n, q =>
    if q.is_empty then ([], q)
    else
      match q.dequeue with
      | (some b, q1) =>
        let r := drainQueue n q1
        (b :: r.1, r.2)
      | (none, q1) => ([], q1)

/-- `PacketData::from_queue` (radio.rs lines 87-99). -/
def PacketData.from_queue (id : Nat) (q : Queue) : PacketData × Queue :=
  let r := drainQueue MAX_PAYLOAD_SIZE q
  (⟨id, r.1⟩, r.2)

/-! ### The radio.rs engine (RxState / TxState) -/

inductive RxState where
  | initial
  | needsAck (id : Nat)
  | acked (id : Nat)
deriving DecidableEq, Repr

inductive TxState where
  | idle
  | sent (packet_data : PacketData) (tx_count : Nat) (since : Nat)
deriving DecidableEq, Repr

/-- `Radio::handle_rx_ack` (radio.rs lines 483-493). -/
def handle_rx_ack (tx : TxState) (ack : Nat) : TxState :=
  match tx with
  | .sent pd _ _ => if pd.id = ack then .idle else tx
  | .idle => tx

/-- Enqueue a byte sequence one byte at a time through `Queue::enqueue`
(the `for` loop of `Radio::handle_rx_data`); `none` propagates the panic
of a full queue. -/
def enqueueAll (q : Queue) (bytes : List Nat) : Option Queue :=
  match bytes with
  | [] => some q
  | b :: rest =>
    match q.enqueue b with
    | some q1 => enqueueAll q1 rest
    | none => none

/-- `Radio::handle_rx_data` (radio.rs lines 495-526), acting on
`(rx_state, rx_queue)`. -/
def handle_rx_data (rx : RxState) (pd : PacketData) (rx_queue : Queue) :
    Option (RxState × Queue) :=
  match rx with
  | .initial =>
    match enqueueAll rx_queue pd.data with
    | some q1 => some (.needsAck pd.id, q1)
    | none => none
  | .acked last =>
    if pd.id ≠ last then
      match enqueueAll rx_queue pd.data with
      | some q1 => some (.needsAck pd.id, q1)
      | none => none
    else
      some (.needsAck pd.id, rx_queue)
  | .needsAck _ => some (rx, rx_queue)

/-- `Radio::assemble_packet` (radio.rs lines 528-632), acting on
`(rx_state, tx_state, tx_queue, next_packet_id)` and returning the packet
to transmit (if any) together with the new state.  `get_packet_id`
increments `next_packet_id` with u8 wrapping. -/
def assemble_packet (rx : RxState) (tx : TxState) (now : Nat)
    (tx_queue : Queue) (next_packet_id : Nat) :
    Option Packet × RxState × TxState × Queue × Nat :=
  match rx, tx with
  | .needsAck ack_id, .sent packet_data tx_count _ =>
    (some (.both ack_id packet_data), .acked ack_id,
      .sent packet_data (tx_count + 1) now, tx_queue, next_packet_id)
  | rx_state, .sent packet_data tx_count since =>
    if 2 + wmul7 now % 89 < wsub now since then
      if tx_count ≤ 16 then
        ((match rx_state with
          | .acked ack_id => some (.both ack_id packet_data)
          | _ => some (.data packet_data)),
         rx_state, .sent packet_data (tx_count + 1) now, tx_queue,
         next_packet_id)
      else
        (none, rx_state, .idle, tx_queue, next_packet_id)
    else
      (none, rx_state, .sent packet_data tx_count since, tx_queue,
       next_packet_id)
  | .needsAck ack_id, .idle =>
    if tx_queue.is_empty = false then
      let r := PacketData.from_queue next_packet_id tx_queue
      (some (.both ack_id r.1), .acked ack_id, .sent r.1 1 now, r.2,
       (next_packet_id + 1) % 256)
    else
      (some (.ack ack_id), .acked ack_id, .idle, tx_queue, next_packet_id)
  | rx_state, .idle =>
    if tx_queue.is_empty = false then
      let r := PacketData.from_queue next_packet_id tx_queue
      (some (.data r.1), rx_state, .sent r.1 1 now, r.2,
       (next_packet_id + 1) % 256)
    else
      (none, rx_state, .idle, tx_queue, next_packet_id)

/-! ### Pend (pend.rs) -/

inductive Pend where
  | nothing
  | radio
  | uart
  | both
deriving DecidableEq, Repr

/-- `Pend::plus` (pend.rs lines 12-31). -/
def Pend.plus : Pend → Pend → Pend
  | .nothing, .nothing => .nothing
  | .nothing, .radio => .radio
  | .nothing, .uart => .uart
  | .nothing, .both => .both
  | .radio, .nothing => .radio
  | .radio, .radio => .radio
  | .radio, .uart => .both
  | .radio, .both => .both
  | .uart, .nothing => .uart
  | .uart, .radio => .both
  | .uart, .uart => .uart
  | .uart, .both => .both
  | .both, .nothing => .both
  | .both, .radio => .both
  | .both, .uart => .both
  | .both, .both => .both

/-! ### The radio_protocol.rs engine

The `RadioProtocol` struct owns the consumer/producer halves of the four
heapless spsc queues.  The engine-visible sides are modelled as lists;
producer capacities (declared in `main.rs`, whose queue type aliases are
not among the provided sources) are kept abstract in `Caps`. -/

structure Caps where
  uartTx : Nat
  radioTx : Nat
deriving DecidableEq, Repr

/-- `heapless::spsc::Producer::enqueue`: fails (returns the element back)
iff the queue is full. -/
def penqueue {α : Type} (cap : Nat) (q : List α) (x : α) : Option (List α) :=
  if q.length < cap then some (q ++ [x]) else none

/-- The uart-tx enqueue loop of `RadioProtocol::handle_rx_data`: a failed
enqueue only warns, dropping the byte. -/
def enqueueDropFull (cap : Nat) (q : List Nat) (bytes : List Nat) : List Nat :=
  bytes.foldl (fun acc b =>
    match penqueue cap acc b with
    | some q1 => q1
    | none => acc) q

/-- Modelled from the spec: `PacketData::from_consumer` is called by
`radio_protocol.rs` (lines 87 and 139) but its definition is not among the
provided sources; per spec §4.3.5 the drain pops up to `MAX_DATA`
(`MAX_PAYLOAD_SIZE`) bytes in FIFO order, never blocking. -/
def PacketData.from_consumer (id : Nat) (q : List Nat) : PacketData × List Nat :=
  (⟨id, q.take MAX_PAYLOAD_SIZE⟩, q.drop MAX_PAYLOAD_SIZE)

/-- Engine state of `RadioProtocol` (radio_protocol.rs lines 6-20):
`waiting_for_ack` holds `(packet_data, tx_count, since)`. -/
structure RPState where
  last_acked : Option Nat
  waiting_for_ack : Option (PacketData × Nat × Nat)
  next_packet_id : Nat
  uart_rx : List Nat
  uart_tx : List Nat
  radio_tx : List Packet
deriving DecidableEq, Repr

/-- `RadioProtocol::handle_rx_data` (radio_protocol.rs lines 60-109). -/
def rp_handle_rx_data (caps : Caps) (now : Nat) (pd : PacketData)
    (s : RPState) : RPState × Pend :=
  let rxPart : List Nat × Pend :=
    if s.last_acked ≠ some pd.id then
      (enqueueDropFull caps.uartTx s.uart_tx pd.data, Pend.uart)
    else
      (s.uart_tx, Pend.nothing)
  let txAssembled : Packet × RPState :=
    match s.waiting_for_ack with
    | some (wpd, n, _) =>
      (Packet.both pd.id wpd,
       { s with uart_tx := rxPart.1,
                waiting_for_ack := some (wpd, n + 1, now) })
    | none =>
      if s.uart_rx ≠ [] then
        let r := PacketData.from_consumer s.next_packet_id s.uart_rx
        (Packet.both pd.id r.1,
         { s with uart_tx := rxPart.1, uart_rx := r.2,
                  next_packet_id := (s.next_packet_id + 1) % 256,
                  waiting_for_ack := some (r.1, 1, now) })
      else
        (Packet.ack pd.id, { s with uart_tx := rxPart.1 })
  match penqueue caps.radioTx txAssembled.2.radio_tx txAssembled.1 with
  | none => (txAssembled.2, rxPart.2.plus Pend.radio)
  | some rtx =>
    ({ txAssembled.2 with radio_tx := rtx, last_acked := some pd.id },
     rxPart.2.plus Pend.radio)

/-- `RadioProtocol::handle_rx_ack` (radio_protocol.rs lines 111-129). -/
def rp_handle_rx_ack (rx_id : Nat) (s : RPState) : RPState × Pend :=
  match s.waiting_for_ack with
  | some (wpd, _, _) =>
    if wpd.id = rx_id then ({ s with waiting_for_ack := none }, Pend.nothing)
    else (s, Pend.nothing)
  | none => (s, Pend.nothing)

/-- `RadioProtocol::handle_tx_data` (radio_protocol.rs lines 131-156). -/
def rp_handle_tx_data (caps : Caps) (now : Nat) (s : RPState) :
    RPState × Pend :=
  if s.waiting_for_ack.isSome then (s, Pend.nothing)
  else
    let r := PacketData.from_consumer s.next_packet_id s.uart_rx
    let s1 := { s with uart_rx := r.2,
                       next_packet_id := (s.next_packet_id + 1) % 256 }
    match penqueue caps.radioTx s1.radio_tx (Packet.data r.1) with
    | none => (s1, Pend.radio)
    | some rtx =>
      ({ s1 with radio_tx := rtx, waiting_for_ack := some (r.1, 1, now) },
       Pend.radio)

/-- `RadioProtocol::handle_waiting_for_ack` (radio_protocol.rs lines
158-197).  The source `unwrap`s `waiting_for_ack`; `run` only calls it when
it is `some`, and on `none` we return the state unchanged. -/
def rp_handle_waiting_for_ack (caps : Caps) (now : Nat) (s : RPState) :
    RPState × Pend :=
  match s.waiting_for_ack with
  | none => (s, Pend.nothing)
  | some (wpd, n, since) =>
    if 2 + wmul7 now % 89 < wsub now since then
      if n ≤ 16 then
        let packet := match s.last_acked with
          | some ack_id => Packet.both ack_id wpd
          | none => Packet.data wpd
        let s1 := { s with waiting_for_ack := some (wpd, n + 1, now) }
        match penqueue caps.radioTx s1.radio_tx packet with
        | none => (s1, Pend.nothing)
        | some rtx => ({ s1 with radio_tx := rtx }, Pend.radio)
      else
        ({ s with waiting_for_ack := none }, Pend.nothing)
    else
      (s, Pend.nothing)

/-! ### Codec lemmas -/

theorem setByte_of_lt (target : List Nat) (i v : Nat) (h : i < target.length) :
    setByte target i v = some (target.set i v) := by
  simp [setByte, h]

theorem take_set_succ (l : List Nat) (i b : Nat) (h : i < l.length) :
    (l.set i b).take (i + 1) = l.take i ++ [b] := by
  rw [List.set_eq_take_cons_drop b h]
  have hlen : (l.take i).length = i := by
    simp [List.length_take, Nat.min_eq_left (Nat.le_of_lt h)]
  rw [show i + 1 = (l.take i).length + 1 by rw [hlen]]
  rw [List.take_append, List.take_succ_cons, List.take_zero]

theorem setSlice_eq (src : List Nat) : ∀ (l : List Nat) (i : Nat),
    i + src.length ≤ l.length →
    setSlice l i src = some (l.take i ++ src ++ l.drop (i + src.length)) := by
  induction src with
  | nil =>
    intro l i h
    simp [setSlice, List.take_append_drop]
  | cons b rest ih =>
    intro l i h
    have hi : i < l.length := by simp at h; omega
    have hrec : (i + 1) + rest.length ≤ (l.set i b).length := by
      simp [List.length_set]; simp at h; omega
    rw [setSlice, setByte_of_lt l i b hi]
    show setSlice (l.set i b) (i + 1) rest = _
    rw [ih (l.set i b) (i + 1) hrec]
    rw [take_set_succ l i b hi, List.drop_set_of_lt b l (by omega)]
    rw [List.append_assoc (l.take i) [b] rest]
    simp [show i + 1 + rest.length = i + (rest.length + 1) by omega]

theorem drop_four_add (n a b c d : Nat) (l : List Nat) :
    (a :: b :: c :: d :: l).drop (4 + n) = l.drop n := by
  rw [show 4 + n = n + 1 + 1 + 1 + 1 by omega]
  rw [List.drop_succ_cons, List.drop_succ_cons, List.drop_succ_cons,
    List.drop_succ_cons]

theorem drop_five_add (n a b c d e : Nat) (l : List Nat) :
    (a :: b :: c :: d :: e :: l).drop (5 + n) = l.drop n := by
  rw [show 5 + n = n + 1 + 1 + 1 + 1 + 1 by omega]
  rw [List.drop_succ_cons, List.drop_succ_cons, List.drop_succ_cons,
    List.drop_succ_cons, List.drop_succ_cons]

theorem write_ack_eq (a b0 b1 b2 b3 : Nat) (rest : List Nat) :
    (Packet.ack a).write (b0 :: b1 :: b2 :: b3 :: rest)
      = some (65 :: 1 :: 0 :: a :: rest) := by
  simp [Packet.write, setByte, S0, LEN, S1, PAYLOAD]

theorem write_data_eq (id : Nat) (data : List Nat) (b0 b1 b2 b3 : Nat)
    (rest : List Nat) (h : data.length ≤ rest.length) :
    (Packet.data ⟨id, data⟩).write (b0 :: b1 :: b2 :: b3 :: rest)
      = some (68 :: (data.length + 1) :: 0 :: id
          :: (data ++ rest.drop data.length)) := by
  have hs : setSlice (68 :: (data.length + 1) :: 0 :: id :: rest) 4 data
      = some (68 :: (data.length + 1) :: 0 :: id
          :: (data ++ rest.drop data.length)) := by
    rw [setSlice_eq data _ 4 (by simp; omega)]
    rw [show (68 :: (data.length + 1) :: 0 :: id :: rest).take 4
        = [68, data.length + 1, 0, id] from rfl]
    rw [drop_four_add data.length]
    simp
  simp [Packet.write, setByte, S0, LEN, S1, PAYLOAD, hs]

theorem write_both_eq (ackId id : Nat) (data : List Nat)
    (b0 b1 b2 b3 b4 : Nat) (rest : List Nat) (h : data.length ≤ rest.length) :
    (Packet.both ackId ⟨id, data⟩).write (b0 :: b1 :: b2 :: b3 :: b4 :: rest)
      = some (88 :: (data.length + 2) :: 0 :: ackId :: id
          :: (data ++ rest.drop data.length)) := by
  have hs : setSlice (88 :: (data.length + 2) :: 0 :: ackId :: id :: rest) 5
      data
      = some (88 :: (data.length + 2) :: 0 :: ackId :: id
          :: (data ++ rest.drop data.length)) := by
    rw [setSlice_eq data _ 5 (by simp; omega)]
    rw [show (88 :: (data.length + 2) :: 0 :: ackId :: id :: rest).take 5
        = [88, data.length + 2, 0, ackId, id] from rfl]
    rw [drop_five_add data.length]
    simp
  simp [Packet.write, setByte, S0, LEN, S1, PAYLOAD, hs]

theorem read_ack_form (a : Nat) (tail : List Nat) :
    Packet.read (65 :: 1 :: 0 :: a :: tail) = some (.ack a) := by
  simp [Packet.read, MIN_PAYLOAD_SIZE, MAX_PAYLOAD_SIZE, S0, LEN, PAYLOAD]

theorem read_data_form (id : Nat) (data tail : List Nat)
    (h : data.length ≤ 26) :
    Packet.read (68 :: (data.length + 1) :: 0 :: id :: (data ++ tail))
      = some (.data ⟨id, data⟩) := by
  rw [Packet.read]
  simp only [LEN, S0, PAYLOAD, MIN_PAYLOAD_SIZE, MAX_PAYLOAD_SIZE,
    List.getD_cons_succ, List.getD_cons_zero]
  rw [if_neg (by omega)]
  simp [List.take_left]

theorem read_both_form (ackId id : Nat) (data tail : List Nat)
    (h : data.length ≤ 25) :
    Packet.read (88 :: (data.length + 2) :: 0 :: ackId :: id
        :: (data ++ tail))
      = some (.both ackId ⟨id, data⟩) := by
  rw [Packet.read]
  simp only [LEN, S0, PAYLOAD, MIN_PAYLOAD_SIZE, MAX_PAYLOAD_SIZE,
    List.getD_cons_succ, List.getD_cons_zero]
  rw [if_neg (by omega)]
  simp [List.take_left]

/-! ### C3 - codec round trip -/

/-- C3 counterexample: the frame `DATA(id = 0, 27 payload bytes)` has
payload length `MAX_DATA = MAX_PAYLOAD_SIZE = 27`, and `Packet::write`
succeeds on a large enough buffer (producing length byte 28), but
`Packet::read` rejects any frame with length byte above
`MAX_PAYLOAD_SIZE = 27`, so decode-of-encode returns `none`, not the
original frame. -/
theorem codec_roundtrip_counterexample :
    ((Packet.data ⟨0, List.replicate 27 7⟩).write
        (List.replicate 32 0)).isSome = true
    ∧ ((Packet.data ⟨0, List.replicate 27 7⟩).write
        (List.replicate 32 0)).bind Packet.read = none := by
  decide

/-- C3 (amended): decode-of-encode returns the original frame for every
`ACK`, for every `DATA` whose payload length is at most
`MAX_PAYLOAD_SIZE - 1 = 26`, and for every `BOTH` whose payload length is
at most `MAX_PAYLOAD_SIZE - 2 = 25` (the wire length byte counts the id
and ack bytes, and `Packet::read` caps it at `MAX_PAYLOAD_SIZE`). -/
theorem codec_roundtrip_amended (a id : Nat) (data : List Nat) :
    (((Packet.ack a).write (List.replicate 32 0)).bind Packet.read
        = some (.ack a))
    ∧ (data.length ≤ 26 →
      ((Packet.data ⟨id, data⟩).write (List.replicate 32 0)).bind Packet.read
        = some (.data ⟨id, data⟩))
    ∧ (data.length ≤ 25 →
      ((Packet.both a ⟨id, data⟩).write
          (List.replicate 32 0)).bind Packet.read
        = some (.both a ⟨id, data⟩)) := by
  have hbuf4 : List.replicate 32 (0 : Nat)
      = 0 :: 0 :: 0 :: 0 :: List.replicate 28 0 := rfl
  have hbuf5 : List.replicate 32 (0 : Nat)
      = 0 :: 0 :: 0 :: 0 :: 0 :: List.replicate 27 0 := rfl
  refine ⟨?_, fun h => ?_, fun h => ?_⟩
  · rw [hbuf4, write_ack_eq, Option.some_bind]
    exact read_ack_form a _
  · rw [hbuf4, write_data_eq id data 0 0 0 0 _ (by simp; omega),
      Option.some_bind]
    exact read_data_form id data _ h
  · rw [hbuf5, write_both_eq a id data 0 0 0 0 0 _ (by simp; omega),
      Option.some_bind]
    exact read_both_form a id data _ h

/-- C3 amended witness at `a = 4`, `id = 9`, `data = [1, 2, 3]`. -/
theorem codec_roundtrip_amended_witness :
    (((Packet.ack 4).write (List.replicate 32 0)).bind Packet.read
        = some (.ack 4))
    ∧ (([1, 2, 3] : List Nat).length ≤ 26
      ∧ ((Packet.data ⟨9, [1, 2, 3]⟩).write
          (List.replicate 32 0)).bind Packet.read
        = some (.data ⟨9, [1, 2, 3]⟩))
    ∧ (([1, 2, 3] : List Nat).length ≤ 25
      ∧ ((Packet.both 4 ⟨9, [1, 2, 3]⟩).write
          (List.replicate 32 0)).bind Packet.read
        = some (.both 4 ⟨9, [1, 2, 3]⟩)) :=
  ⟨(codec_roundtrip_amended 4 9 [1, 2, 3]).1,
   ⟨by decide, (codec_roundtrip_amended 4 9 [1, 2, 3]).2.1 (by decide)⟩,
   ⟨by decide, (codec_roundtrip_amended 4 9 [1, 2, 3]).2.2 (by decide)⟩⟩

/-! ### C4 - encoding of a full-size payload overflows the frame buffer -/

/-- C4: `PacketData::from_queue` really produces payloads of
`MAX_PAYLOAD_SIZE = 27` bytes whenever 27 or more bytes are queued, and
`Packet::write` of such a `DATA` frame into the engine frame buffer
`plaintext : [u8; MAX_PAYLOAD_SIZE]` (27 bytes) indexes the buffer out of
bounds (it needs indices up to 30), i.e. the panic branch is reachable:
the encoding is not infallible for `data_len ≤ MAX_DATA`. -/
theorem write_overflows_frame_buffer :
    (PacketData.from_queue 0 ⟨List.replicate 27 65, none, false⟩).1
        = ⟨0, List.replicate 27 65⟩
    ∧ (Packet.data ⟨0, List.replicate 27 65⟩).write (List.replicate 27 0)
        = none := by
  decide

/-! ### C1 - duplicate DATA is dropped but re-acked -/

/-- C1: a received DATA frame whose id equals the id of the most recently
received DATA delivers no byte.  In radio.rs, `handle_rx_data` in state
`Acked{last}` with `pd.id = last` leaves the uart-tx byte queue unchanged
and re-arms `NeedsAck{pd.id}` (so the ACK is re-emitted).  In
radio_protocol.rs, `handle_rx_data` with `last_acked = Some(pd.id)` leaves
`uart_tx` unchanged, and the frame it enqueues towards the radio carries
ack id `pd.id`: `radio_tx` either grows by exactly one ack-carrying frame
for `pd.id`, or (only when full) stays unchanged. -/
theorem duplicate_data_dropped_and_reacked
    (last : Nat) (pd : PacketData) (q : Queue) (h1 : pd.id = last)
    (caps : Caps) (now : Nat) (s : RPState)
    (h2 : s.last_acked = some pd.id) :
    handle_rx_data (.acked last) pd q = some (.needsAck pd.id, q)
    ∧ (rp_handle_rx_data caps now pd s).1.uart_tx = s.uart_tx
    ∧ ((rp_handle_rx_data caps now pd s).1.radio_tx = s.radio_tx
      ∨ ∃ p, Packet.ackIdOf p = some pd.id
          ∧ (rp_handle_rx_data caps now pd s).1.radio_tx
              = s.radio_tx ++ [p]) := by
  subst h1
  refine ⟨by simp [handle_rx_data], ?_⟩
  cases hw : s.waiting_for_ack with
  | none =>
    by_cases hrx : s.uart_rx = []
    · by_cases hfull : s.radio_tx.length < caps.radioTx
      · exact ⟨by simp [rp_handle_rx_data, h2, hw, hrx, penqueue, hfull],
          Or.inr ⟨Packet.ack pd.id, rfl,
            by simp [rp_handle_rx_data, h2, hw, hrx, penqueue, hfull]⟩⟩
      · exact ⟨by simp [rp_handle_rx_data, h2, hw, hrx, penqueue, hfull],
          Or.inl (by
            simp [rp_handle_rx_data, h2, hw, hrx, penqueue, hfull])⟩
    · by_cases hfull : s.radio_tx.length < caps.radioTx
      · exact ⟨by simp [rp_handle_rx_data, h2, hw, hrx, penqueue, hfull,
            PacketData.from_consumer],
          Or.inr ⟨Packet.both pd.id
              ⟨s.next_packet_id, s.uart_rx.take MAX_PAYLOAD_SIZE⟩, rfl,
            by simp [rp_handle_rx_data, h2, hw, hrx, penqueue, hfull,
              PacketData.from_consumer]⟩⟩
      · exact ⟨by simp [rp_handle_rx_data, h2, hw, hrx, penqueue, hfull,
            PacketData.from_consumer],
          Or.inl (by simp [rp_handle_rx_data, h2, hw, hrx, penqueue, hfull,
            PacketData.from_consumer])⟩
  | some w =>
    obtain ⟨wpd, n, since⟩ := w
    by_cases hfull : s.radio_tx.length < caps.radioTx
    · exact ⟨by simp [rp_handle_rx_data, h2, hw, penqueue, hfull],
        Or.inr ⟨Packet.both pd.id wpd, rfl,
          by simp [rp_handle_rx_data, h2, hw, penqueue, hfull]⟩⟩
    · exact ⟨by simp [rp_handle_rx_data, h2, hw, penqueue, hfull],
        Or.inl (by simp [rp_handle_rx_data, h2, hw, penqueue, hfull])⟩

/-- C1 witness: duplicate of packet id 5 against a concrete engine
state. -/
theorem duplicate_data_dropped_and_reacked_witness :
    ((5 : Nat) = 5 ∧ RPState.last_acked
        ⟨some 5, none, 0, [], [], []⟩ = some 5)
    ∧ (handle_rx_data (.acked 5) ⟨5, [1, 2]⟩ ⟨[], none, false⟩
        = some (.needsAck 5, ⟨[], none, false⟩)
      ∧ (rp_handle_rx_data ⟨4, 4⟩ 0 ⟨5, [1, 2]⟩
          ⟨some 5, none, 0, [], [], []⟩).1.uart_tx
          = RPState.uart_tx ⟨some 5, none, 0, [], [], []⟩
      ∧ ((rp_handle_rx_data ⟨4, 4⟩ 0 ⟨5, [1, 2]⟩
          ⟨some 5, none, 0, [], [], []⟩).1.radio_tx
            = RPState.radio_tx ⟨some 5, none, 0, [], [], []⟩
        ∨ ∃ p, Packet.ackIdOf p = some 5
            ∧ (rp_handle_rx_data ⟨4, 4⟩ 0 ⟨5, [1, 2]⟩
                ⟨some 5, none, 0, [], [], []⟩).1.radio_tx
              = RPState.radio_tx ⟨some 5, none, 0, [], [], []⟩ ++ [p])) :=
  ⟨⟨rfl, rfl⟩,
   duplicate_data_dropped_and_reacked 5 ⟨5, [1, 2]⟩ ⟨[], none, false⟩ rfl
     ⟨4, 4⟩ 0 ⟨some 5, none, 0, [], [], []⟩ rfl⟩

/-! ### C2 - retry cap -/

/-- C2 counterexample: with `tx_count = 16` (the claimed cap) and the
retransmission due, `assemble_packet` still emits a frame and moves to
`tx_count = 17`, instead of emitting nothing and going Idle: the source
guard is `tx_count <= 16`. -/
theorem retry_cap_counterexample :
    2 + wmul7 100 % 89 < wsub 100 0
    ∧ (assemble_packet .initial (.sent ⟨0, [66]⟩ 16 0) 100
        ⟨[], none, false⟩ 0).1 = some (.data ⟨0, [66]⟩)
    ∧ (assemble_packet .initial (.sent ⟨0, [66]⟩ 16 0) 100
        ⟨[], none, false⟩ 0).2.2.1 = .sent ⟨0, [66]⟩ 17 100 := by
  decide

/-- C2 (amended): on a due tick the engine gives up (emits nothing, drops
the outstanding `PacketData`, returns to Idle) exactly when the
transmission count is at least 17; with `tx_count ≤ 16` a due tick still
retransmits, so a DATA packet can be transmitted up to 17 times.
Moreover the piggybacked resend path (`NeedsAck` + `Sent`) applies no cap
at all. -/
theorem retry_cap_amended (rx : RxState) (pd : PacketData)
    (n since now : Nat) (q : Queue) (nid : Nat)
    (hrx : ∀ a, rx ≠ .needsAck a)
    (hdue : 2 + wmul7 now % 89 < wsub now since) :
    (17 ≤ n → assemble_packet rx (.sent pd n since) now q nid
        = (none, rx, .idle, q, nid))
    ∧ (n ≤ 16 → ∃ p, assemble_packet rx (.sent pd n since) now q nid
        = (some p, rx, .sent pd (n + 1) now, q, nid))
    ∧ (∀ a m s2, assemble_packet (.needsAck a) (.sent pd m s2) now q nid
        = (some (.both a pd), .acked a, .sent pd (m + 1) now, q, nid)) := by
  refine ⟨?_, ?_, fun a m s2 => rfl⟩
  · intro h17
    cases rx with
    | needsAck a => exact absurd rfl (hrx a)
    | initial => simp [assemble_packet, hdue, show ¬ n ≤ 16 by omega]
    | acked a => simp [assemble_packet, hdue, show ¬ n ≤ 16 by omega]
  · intro h16
    cases rx with
    | needsAck a => exact absurd rfl (hrx a)
    | initial => exact ⟨.data pd, by simp [assemble_packet, hdue, h16]⟩
    | acked a => exact ⟨.both a pd, by simp [assemble_packet, hdue, h16]⟩

/-- C2 amended witness: at `tx_count = 17` a due tick gives up. -/
theorem retry_cap_amended_witness :
    (∀ a, RxState.initial ≠ RxState.needsAck a)
    ∧ 2 + wmul7 100 % 89 < wsub 100 0
    ∧ assemble_packet .initial (.sent ⟨0, [67]⟩ 17 0) 100
        ⟨[], none, false⟩ 0
      = (none, .initial, .idle, ⟨[], none, false⟩, 0) :=
  ⟨fun _ h => RxState.noConfusion h, by decide,
   (retry_cap_amended .initial ⟨0, [67]⟩ 17 0 100 ⟨[], none, false⟩ 0
      (fun _ h => RxState.noConfusion h) (by decide)).1 (by decide)⟩

/-! ### C6 - retransmission timing -/

/-- C6 counterexample: with `tx_count = 17` the retransmit condition
`now - since > 2 + ((now * 7) mod 89)` holds (wrapping u32 arithmetic) yet
the tick emits nothing (it gives up), so "retransmits exactly when the
condition holds" fails as stated. -/
theorem retransmit_timing_counterexample :
    2 + wmul7 100 % 89 < wsub 100 0
    ∧ (assemble_packet .initial (.sent ⟨0, [65]⟩ 17 0) 100
        ⟨[], none, false⟩ 0).1 = none := by
  decide

/-- C6 (amended): while `TxState = Sent{pd, n, since}` and `RxState` is
not `NeedsAck` (no received DATA forces an immediate piggybacked resend),
a tick with `tx_count ≤ 16` emits a frame iff the wrapping u32 difference
`now - since` is strictly greater than `2 + ((now * 7 mod 2^32) mod 89)`;
whenever that condition is false — for any `tx_count` — the tick emits
nothing and leaves `RxState`, `TxState`, the queue and `next_packet_id`
unchanged. -/
theorem retransmit_timing_amended (rx : RxState) (pd : PacketData)
    (n since now : Nat) (q : Queue) (nid : Nat)
    (hrx : ∀ a, rx ≠ .needsAck a) :
    (¬ (2 + wmul7 now % 89 < wsub now since) →
      assemble_packet rx (.sent pd n since) now q nid
        = (none, rx, .sent pd n since, q, nid))
    ∧ (n ≤ 16 →
      ((assemble_packet rx (.sent pd n since) now q nid).1 ≠ none
        ↔ 2 + wmul7 now % 89 < wsub now since)) := by
  constructor
  · intro hnd
    cases rx with
    | needsAck a => exact absurd rfl (hrx a)
    | initial => simp [assemble_packet, hnd]
    | acked a => simp [assemble_packet, hnd]
  · intro h16
    by_cases hd : 2 + wmul7 now % 89 < wsub now since
    · cases rx with
      | needsAck a => exact absurd rfl (hrx a)
      | initial => simp [assemble_packet, hd, h16]
      | acked a => simp [assemble_packet, hd, h16]
    · cases rx with
      | needsAck a => exact absurd rfl (hrx a)
      | initial => simp [assemble_packet, hd]
      | acked a => simp [assemble_packet, hd]

/-- C6 amended witness: a not-yet-due tick changes nothing. -/
theorem retransmit_timing_amended_witness :
    (∀ a, RxState.initial ≠ RxState.needsAck a)
    ∧ ¬ (2 + wmul7 1 % 89 < wsub 1 0)
    ∧ assemble_packet .initial (.sent ⟨0, [68]⟩ 3 0) 1 ⟨[], none, false⟩ 0
        = (none, .initial, .sent ⟨0, [68]⟩ 3 0, ⟨[], none, false⟩, 0) :=
  ⟨fun _ h => RxState.noConfusion h, by decide,
   (retransmit_timing_amended .initial ⟨0, [68]⟩ 3 0 1 ⟨[], none, false⟩ 0
      (fun _ h => RxState.noConfusion h)).1 (by decide)⟩

/-! ### C5 - behaviour when the radio tx queue is full -/

/-- C5 counterexample: with the radio tx queue full (capacity 1, one
frame queued), a due retransmission tick fails its enqueue — `radio_tx`
is unchanged — yet `TxState` is not left unchanged: `tx_count` was already
incremented from 2 to 3 and `since` reset from 0 to 100 before the
enqueue was attempted. -/
theorem tx_atomicity_counterexample :
    (rp_handle_waiting_for_ack ⟨8, 1⟩ 100
        ⟨some 3, some (⟨1, [65]⟩, 2, 0), 5, [], [],
          [Packet.ack 0]⟩).1.radio_tx
      = [Packet.ack 0]
    ∧ (rp_handle_waiting_for_ack ⟨8, 1⟩ 100
        ⟨some 3, some (⟨1, [65]⟩, 2, 0), 5, [], [],
          [Packet.ack 0]⟩).1.waiting_for_ack
      = some (⟨1, [65]⟩, 3, 100) := by
  decide

/-- C5 (amended): a failed enqueue into `radio_tx` is not atomic.  In
`handle_waiting_for_ack` the engine has already incremented `tx_count`
and reset `since` to `now` before the enqueue fails (same `PacketData`,
queues untouched, `Pend::Nothing` returned).  In `handle_tx_data` the
engine has already drained up to `MAX_PAYLOAD_SIZE` bytes from
`uart_rx_q` and advanced `next_packet_id`, and on failure it leaves
`waiting_for_ack = None`, so the drained bytes are dropped instead of
retried. -/
theorem tx_queue_full_amended (caps : Caps) (now : Nat) (pd : PacketData)
    (n since : Nat) (s : RPState)
    (hw : s.waiting_for_ack = some (pd, n, since))
    (hdue : 2 + wmul7 now % 89 < wsub now since)
    (hn : n ≤ 16)
    (hfull : caps.radioTx ≤ s.radio_tx.length) :
    rp_handle_waiting_for_ack caps now s
      = ({ s with waiting_for_ack := some (pd, n + 1, now) }, Pend.nothing)
    ∧ ∀ s2 : RPState, s2.waiting_for_ack = none →
        caps.radioTx ≤ s2.radio_tx.length →
        rp_handle_tx_data caps now s2
          = ({ s2 with uart_rx := s2.uart_rx.drop MAX_PAYLOAD_SIZE,
                       next_packet_id := (s2.next_packet_id + 1) % 256 },
             Pend.radio) := by
  constructor
  · simp [rp_handle_waiting_for_ack, hw, hdue, hn, penqueue,
      show ¬ s.radio_tx.length < caps.radioTx by omega]
  · intro s2 h2 hf2
    simp [rp_handle_tx_data, h2, PacketData.from_consumer, penqueue,
      show ¬ s2.radio_tx.length < caps.radioTx by omega]

/-- C5 amended witness: concrete full-queue retransmission tick. -/
theorem tx_queue_full_amended_witness :
    RPState.waiting_for_ack
        ⟨some 3, some (⟨1, [65]⟩, 2, 0), 5, [], [], [Packet.ack 0]⟩
      = some (⟨1, [65]⟩, 2, 0)
    ∧ 2 + wmul7 100 % 89 < wsub 100 0
    ∧ (2 : Nat) ≤ 16
    ∧ Caps.radioTx ⟨8, 1⟩
        ≤ (RPState.radio_tx
            ⟨some 3, some (⟨1, [65]⟩, 2, 0), 5, [], [],
              [Packet.ack 0]⟩).length
    ∧ rp_handle_waiting_for_ack ⟨8, 1⟩ 100
        ⟨some 3, some (⟨1, [65]⟩, 2, 0), 5, [], [], [Packet.ack 0]⟩
      = (⟨some 3, some (⟨1, [65]⟩, 3, 100), 5, [], [], [Packet.ack 0]⟩,
         Pend.nothing) :=
  ⟨rfl, by decide, by decide, by decide,
   (tx_queue_full_amended ⟨8, 1⟩ 100 ⟨1, [65]⟩ 2 0
      ⟨some 3, some (⟨1, [65]⟩, 2, 0), 5, [], [], [Packet.ack 0]⟩
      rfl (by decide) (by decide) (by decide)).1⟩

/-! ### C7 - flow-control thresholds -/

/-- C7: `Queue::flow_control` places an XOFF (0x13) into the peer queue
iff the data length is strictly greater than `HIGH = QUEUE_SIZE/2 = 512`
and `xoff` was not already requested (length exactly 512 causes no
transition); it places an XON (0x11) iff `xoff` was requested and the
length is strictly below `LOW = QUEUE_SIZE/4 = 256`; in every other case
both queues are unchanged. -/
theorem flow_control_characterization (q t : Queue) :
    ((512 < q.queue.length ∧ q.xoff_on = false) →
      q.flow_control t
        = ({ q with xoff_on := true }, { t with control := some XOFF }))
    ∧ ((q.xoff_on = true ∧ q.queue.length < 256) →
      q.flow_control t
        = ({ q with xoff_on := false }, { t with control := some XON }))
    ∧ ((¬ (512 < q.queue.length ∧ q.xoff_on = false)
        ∧ ¬ (q.xoff_on = true ∧ q.queue.length < 256)) →
      q.flow_control t = (q, t)) := by
  refine ⟨fun h => ?_, fun h => ?_, fun h => ?_⟩
  · simp [Queue.flow_control, QUEUE_SIZE, h.1, h.2]
  · simp [Queue.flow_control, QUEUE_SIZE, h.1, h.2]
  · simp only [Queue.flow_control, QUEUE_SIZE]
    rw [if_neg (by simpa using h.1), if_neg (by simpa using h.2)]

/-- C7 witness: a queue of 513 data bytes with `xoff` not yet requested
triggers an XOFF into the peer queue. -/
theorem flow_control_characterization_witness :
    (512 < (Queue.mk (List.replicate 513 0) none false).queue.length
      ∧ (Queue.mk (List.replicate 513 0) none false).xoff_on = false)
    ∧ Queue.flow_control (Queue.mk (List.replicate 513 0) none false)
        (Queue.mk [] none false)
      = (Queue.mk (List.replicate 513 0) none true,
         Queue.mk [] (some XOFF) false) :=
  ⟨⟨by simp, rfl⟩,
   (flow_control_characterization _ _).1 ⟨by simp, rfl⟩⟩

/-! ### C8 - ACK processing -/

/-- C8: processing a received `ACK(a)` clears `waiting_for_ack` (sets
TxState to Idle, discarding the outstanding `PacketData`) iff a packet is
outstanding and its id equals `a`; in every other case (no outstanding
packet, or mismatched id) the whole engine state — `last_acked`,
`next_packet_id` and all queues included — is unchanged, no queue
operation happens, and the returned pend hint is always `Nothing`.  The
radio.rs `handle_rx_ack` behaves identically on `TxState`. -/
theorem ack_processing_characterization (a : Nat) (s : RPState) :
    ((rp_handle_rx_ack a s).2 = Pend.nothing)
    ∧ (∀ pd n since, s.waiting_for_ack = some (pd, n, since) → pd.id = a →
        rp_handle_rx_ack a s
          = ({ s with waiting_for_ack := none }, Pend.nothing))
    ∧ (∀ pd n since, s.waiting_for_ack = some (pd, n, since) → pd.id ≠ a →
        rp_handle_rx_ack a s = (s, Pend.nothing))
    ∧ (s.waiting_for_ack = none → rp_handle_rx_ack a s = (s, Pend.nothing))
    ∧ (∀ pd n since, handle_rx_ack (.sent pd n since) a
        = if pd.id = a then .idle else .sent pd n since)
    ∧ handle_rx_ack .idle a = .idle := by
  refine ⟨?_, fun pd n since hw hid => ?_, fun pd n since hw hid => ?_,
    fun hw => ?_, fun pd n since => rfl, rfl⟩
  · rcases hw : s.waiting_for_ack with _ | ⟨pd, n, since⟩
    · simp [rp_handle_rx_ack, hw]
    · by_cases hid : pd.id = a
      · simp [rp_handle_rx_ack, hw, hid]
      · simp [rp_handle_rx_ack, hw, hid]
  · simp [rp_handle_rx_ack, hw, hid]
  · simp [rp_handle_rx_ack, hw, hid]
  · simp [rp_handle_rx_ack, hw]

/-- C8 witness: a matching ACK clears the outstanding packet of a
concrete state. -/
theorem ack_processing_characterization_witness :
    RPState.waiting_for_ack ⟨none, some (⟨2, [9]⟩, 1, 0), 3, [4], [], []⟩
      = some (⟨2, [9]⟩, 1, 0)
    ∧ (PacketData.id ⟨2, [9]⟩ = 2)
    ∧ rp_handle_rx_ack 2 ⟨none, some (⟨2, [9]⟩, 1, 0), 3, [4], [], []⟩
        = (⟨none, none, 3, [4], [], []⟩, Pend.nothing) :=
  ⟨rfl, rfl,
   (ack_processing_characterization 2
      ⟨none, some (⟨2, [9]⟩, 1, 0), 3, [4], [], []⟩).2.1
     ⟨2, [9]⟩ 1 0 rfl rfl⟩

/-! ### C9 - full uart rx queue -/

/-- C9: enqueueing into a full byte queue is fatal, not a logged drop:
`Queue::enqueue` (queue.rs) `.unwrap()`s the inner heapless enqueue, so
with the inner queue at capacity (1023 bytes for
`heapless::spsc::Queue<u8, 1024>`) the enqueue of the next byte hits the
panic branch (modelled as `none`), aborting the program; `uart.rs` does
the same `.unwrap()` on `rx_queue.enqueue` for a byte arriving from the
UART. -/
theorem enqueue_full_queue_panics :
    Queue.enqueue ⟨List.replicate 1023 0, none, false⟩ 65 = none := by
  simp [Queue.enqueue, hlQueueCap, QUEUE_SIZE]

/-! ### C10 - the dedicated flow-control slot -/

/-- C10: each queue keeps at most one pending flow-control byte, stored
in the dedicated `control : Option<u8>` slot.  A flow-control transition
writes XON/XOFF into that slot, overwriting whatever undelivered control
byte was there (so an undelivered XOFF is replaced by a later XON and
never delivered); `dequeue` always returns the pending control byte
before any data byte, whatever the content of the data queue — including
when it is full. -/
theorem control_slot_characterization (q t : Queue) (c : Nat) :
    (q.control = some c →
      q.dequeue = (some c, { q with control := none }))
    ∧ (512 < q.queue.length → q.xoff_on = false →
      ((q.flow_control t).2).control = some XOFF)
    ∧ (q.xoff_on = true → q.queue.length < 256 →
      ((q.flow_control t).2).control = some XON) := by
  refine ⟨fun h => ?_, fun h1 h2 => ?_, fun h1 h2 => ?_⟩
  · simp [Queue.dequeue, h]
  · simp [Queue.flow_control, QUEUE_SIZE, h1, h2]
  · simp [Queue.flow_control, QUEUE_SIZE, h1, h2]

/-- C10 witness: with the data queue full and an undelivered XOFF
pending, dequeue returns the control byte first and clears only the
slot. -/
theorem control_slot_characterization_witness :
    Queue.control ⟨List.replicate 1023 7, some XOFF, true⟩ = some XOFF
    ∧ Queue.dequeue ⟨List.replicate 1023 7, some XOFF, true⟩
        = (some XOFF, ⟨List.replicate 1023 7, none, true⟩) :=
  ⟨rfl,
   (control_slot_characterization ⟨List.replicate 1023 7, some XOFF, true⟩
      ⟨[], none, false⟩ XOFF).1 rfl⟩

end Radiolink
